import Mathlib

/-
  Verification of the mistral-ocr-tool dispatcher, batch endpoint and output
  persistence, shallowly embedded from the Python sources:
    src/ocr/ocr_service.py, src/utils/constants.py, src/utils/exceptions.py,
    src/api/app.py, src/utils/file_handler.py.
  Python exceptions are modelled with Except over an error type mirroring the
  exception hierarchy; Python dicts built by the service are modelled as
  association lists so that statements about their exact key sets are real;
  the filesystem is an abstract record of the os-module queries the code makes.
-/

set_option maxHeartbeats 1000000

namespace MistralOCR

/-- Error values mirroring src/utils/exceptions.py. Every constructor except
`otherError` corresponds to OCRToolError or one of its subclasses;
`otherError` stands for any Python exception outside the OCRToolError family.
For FileError-family constructors the stored message is the final combined
message built by the Python constructor. -/
inductive PyErr where
  | toolError (msg : String)
  | apiError (msg : String)
  | configurationError (msg : String)
  | fileError (msg : String)
  | unsupportedFileType (path : String)
  | invalidInput (msg : String)
  | otherError (msg : String)
deriving DecidableEq, Repr

/-- isinstance(e, OCRToolError): true for every constructor except `otherError`. -/
def PyErr.isOCRToolError : PyErr → Bool
  | .otherError _ => false
  | _ => true

/-- isinstance(e, InvalidInputError). -/
def PyErr.isInvalidInput : PyErr → Bool
  | .invalidInput _ => true
  | _ => false

/-- str(e) for each modelled exception. -/
def PyErr.pymsg : PyErr → String
  | .toolError m => m
  | .apiError m => m
  | .configurationError m => m
  | .fileError m => m
  | .unsupportedFileType p => "Unsupported file type (Path: " ++ p ++ ")"
  | .invalidInput m => m
  | .otherError m => m

/-- A Python dict value appearing in the records the service builds: either a
string (the "file" label) or an opaque OCR response object of type α. -/
inductive PyVal (α : Type) where
  | s (v : String)
  | r (v : α)
deriving DecidableEq, Repr

/-- A Python dict with string keys, modelled as an insertion-ordered
association list. -/
abbrev PyDict (α : Type) := List (String × PyVal α)

/-- The dict literal built by the service for one processed document:
\x7b "file": label, "response": response \x7d. -/
def mkRecord {α : Type} (label : String) (resp : α) : PyDict α :=
  [("file", PyVal.s label), ("response", PyVal.r resp)]

/-- dict subscript item[k], as the Python service and file handler use it. -/
def dict_lookup {α : Type} (d : PyDict α) (k : String) : Option (PyVal α) :=
  (d.find? (fun kv => kv.fst == k)).map (fun kv => kv.snd)

/-- The "file" label of a record, as read back by callers of the service. -/
def record_label {α : Type} (d : PyDict α) : String :=
  match dict_lookup d "file" with
  | some (PyVal.s l) => l
  | _ => ""

/-- Python str.startswith, over the character list of the string. -/
def pyStartsWith (s p : String) : Bool := p.data.isPrefixOf s.data

/-- Python str.endswith, over the character list of the string. -/
def pyEndsWith (s p : String) : Bool := p.data.isSuffixOf s.data

/-- ASCII case folding of one character, the fragment of Python str.lower the
extension filter exercises (all supported extensions are ASCII). -/
def pyLowerChar (c : Char) : Char :=
  if 65 ≤ c.toNat ∧ c.toNat ≤ 90 then Char.ofNat (c.toNat + 32) else c

/-- Python str.lower on ASCII strings. -/
def pyLower (s : String) : String := String.mk (s.data.map pyLowerChar)

namespace OCRConstants

/-- OCRConstants.URL_PREFIXES from src/utils/constants.py. -/
def urlAllowlist : List String := ["http://", "https://"]

/-- OCRConstants.SUPPORTED_EXTENSIONS from src/utils/constants.py. -/
def SUPPORTED_EXTENSIONS : List String :=
  [".pdf", ".png", ".jpg", ".jpeg", ".tiff", ".tif", ".bmp"]

/-- OCRConstants.is_url: any(path.startswith(p) for p in URL_PREFIXES). -/
def is_url (path : String) : Bool :=
  urlAllowlist.any (fun p => pyStartsWith path p)

/-- OCRConstants.is_supported_file:
any(path.lower().endswith(ext) for ext in SUPPORTED_EXTENSIONS). -/
def is_supported_file (path : String) : Bool :=
  SUPPORTED_EXTENSIONS.any (fun ext => pyEndsWith (pyLower path) ext)

end OCRConstants

/-- The filesystem queries the service makes, abstracted as a record:
os.path.isfile, os.path.isdir and os.listdir. -/
structure FS where
  isFile : String → Bool
  isDir : String → Bool
  listdir : String → List String

/-- os.path.join for the POSIX cases the service exercises. -/
def joinPath (d f : String) : String :=
  if pyStartsWith f "/" then f
  else if d == "" then f
  else if pyEndsWith d "/" then d ++ f
  else d ++ "/" ++ f

/-- os.path.basename for POSIX paths: the characters after the last slash. -/
def basename (p : String) : String :=
  String.mk ((p.data.reverse.takeWhile (fun c => c != '/')).reverse)

namespace OCRService

/-- OCRService._get_files_in_directory: the direct children of the directory
that are regular files, as joined paths. -/
def _get_files_in_directory (fs : FS) (directory_path : String) : List String :=
  ((fs.listdir directory_path).map (fun f => joinPath directory_path f)).filter
    (fun full => fs.isFile full)

/-- OCRService._filter_supported_files. -/
def _filter_supported_files (files : List String) : List String :=
  files.filter (fun f => OCRConstants.is_supported_file f)

/-- OCRService._process_url: one client call, one record labelled with the URL. -/
def _process_url {α : Type} (client : String → Except PyErr α) (url : String) :
    Except PyErr (List (PyDict α)) :=
  match client url with
  | .ok resp => .ok [mkRecord url resp]
  | .error e => .error e

/-- OCRService._process_file: one client call, one record labelled with the
file path exactly as given. -/
def _process_file {α : Type} (client : String → Except PyErr α) (file_path : String) :
    Except PyErr (List (PyDict α)) :=
  match client file_path with
  | .ok resp => .ok [mkRecord file_path resp]
  | .error e => .error e

/-- The per-file loop of OCRService._process_directory: an OCRToolError-family
failure is caught and the loop continues; any other exception propagates out
of the loop immediately. -/
def _process_directory_loop {α : Type} (client : String → Except PyErr α) :
    List String → Except PyErr (List (PyDict α))
  | [] => .ok []
  | f :: rest =>
    match client f with
    | .ok resp =>
      match _process_directory_loop client rest with
      | .ok tail => .ok (mkRecord (basename f) resp :: tail)
      | .error e => .error e
    | .error e =>
      if e.isOCRToolError then _process_directory_loop client rest
      else .error e

/-- OCRService._process_directory: list, filter, then loop (an empty filtered
list returns the empty list, which the loop also yields on []). -/
def _process_directory {α : Type} (fs : FS) (client : String → Except PyErr α)
    (directory_path : String) : Except PyErr (List (PyDict α)) :=
  _process_directory_loop client
    (_filter_supported_files (_get_files_in_directory fs directory_path))

/-- The try-block of OCRService.process_documents: classification and dispatch,
URL first, then file, then directory, else InvalidInputError. -/
def process_documents_body {α : Type} (fs : FS) (client : String → Except PyErr α)
    (input_path : String) : Except PyErr (List (PyDict α)) :=
  if OCRConstants.is_url input_path then _process_url client input_path
  else if fs.isFile input_path then _process_file client input_path
  else if fs.isDir input_path then _process_directory fs client input_path
  else .error (.invalidInput
    ("Invalid input path: " ++ input_path ++ ". Must be a file, directory, or URL."))

/-- The except-clauses of OCRService.process_documents: OCRToolError-family
exceptions re-raise unchanged, anything else is wrapped into a generic
OCRToolError. -/
def wrap_unexpected {β : Type} (x : Except PyErr β) : Except PyErr β :=
  match x with
  | .ok v => .ok v
  | .error e =>
    if e.isOCRToolError then .error e
    else .error (.toolError ("Unexpected error processing documents: " ++ e.pymsg))

/-- OCRService.process_documents. -/
def process_documents {α : Type} (fs : FS) (client : String → Except PyErr α)
    (input_path : String) : Except PyErr (List (PyDict α)) :=
  wrap_unexpected (process_documents_body fs client input_path)

end OCRService

/-- The batch endpoint response: results plus failed_urls, from src/api/models.py. -/
structure BatchOutcome (α : Type) where
  results : List (PyDict α)
  failed_urls : List String
deriving Repr

/-- The loop of process_batch in src/api/app.py: per URL, call the dispatcher;
a nonempty result contributes its first record to results, an empty result or
any exception appends the URL to failed_urls. -/
def process_batch {α : Type} (service : String → Except PyErr (List (PyDict α))) :
    List String → BatchOutcome α
  | [] => { results := [], failed_urls := [] }
  | u :: rest =>
    let tail := process_batch service rest
    match service u with
    | .ok (r :: _) => { results := r :: tail.results, failed_urls := tail.failed_urls }
    | .ok [] => { results := tail.results, failed_urls := u :: tail.failed_urls }
    | .error _ => { results := tail.results, failed_urls := u :: tail.failed_urls }

/-- JSON values, the structured data json.dump writes and json.load reads. -/
inductive Json where
  | null
  | b (v : Bool)
  | n (v : Int)
  | s (v : String)
  | arr (items : List Json)
  | obj (fields : List (String × Json))

/-- One comprehension step of FileHandler.save_output:
\x7b "file": item["file"], "response": item["response"].model_dump() \x7d.
A record missing either key (a KeyError in Python) becomes the FileError the
surrounding except-clause raises. -/
def save_output_item {α : Type} (model_dump : α → Json) (item : PyDict α) :
    Except PyErr Json :=
  match dict_lookup item "file", dict_lookup item "response" with
  | some (PyVal.s label), some (PyVal.r resp) =>
    .ok (Json.obj [("file", Json.s label), ("response", model_dump resp)])
  | _, _ => .error (.fileError "Error saving output: bad record")

/-- The full comprehension of FileHandler.save_output, in order, stopping at
the first bad record as the Python comprehension would. -/
def save_output_list {α : Type} (model_dump : α → Json) :
    List (PyDict α) → Except PyErr (List Json)
  | [] => .ok []
  | item :: rest =>
    match save_output_item model_dump item, save_output_list model_dump rest with
    | .ok j, .ok js => .ok (j :: js)
    | .error e, _ => .error e
    | .ok _, .error e => .error e

/-- FileHandler.save_output at the structured-data level: the JSON array value
that json.dump serializes (indentation is a textual detail of json.dump and
has no structured-data content). -/
def save_output {α : Type} (model_dump : α → Json) (ocr_responses : List (PyDict α)) :
    Except PyErr Json :=
  (save_output_list model_dump ocr_responses).map Json.arr

/-- Reading one persisted record back as structured data: it must be an object
with exactly the keys "file" and "response", in that order. -/
def read_record : Json → Option (String × Json)
  | Json.obj [("file", Json.s label), ("response", payload)] => some (label, payload)
  | _ => none

/-- Reading a list of persisted records back. -/
def read_record_list : List Json → Option (List (String × Json))
  | [] => some []
  | j :: rest =>
    match read_record j, read_record_list rest with
    | some r, some rs => some (r :: rs)
    | _, _ => none

/-- Reading a persisted output file back as structured data: a JSON array of
records. -/
def read_output : Json → Option (List (String × Json))
  | Json.arr items => read_record_list items
  | _ => none

/-- True when a call either succeeded or failed with an OCRToolError-family
error, the failure kinds the external-call interface declares. -/
def okOrToolError {α : Type} (x : Except PyErr α) : Bool :=
  match x with
  | .ok _ => true
  | .error e => e.isOCRToolError

/-- True when the external call for this input fails. -/
def clientFails {α : Type} (client : String → Except PyErr α) (f : String) : Bool :=
  match client f with
  | .ok _ => false
  | .error _ => true

/-- The record the directory loop produces for a file, when its call succeeds. -/
def succRecord {α : Type} (client : String → Except PyErr α) (f : String) :
    Option (PyDict α) :=
  match client f with
  | .ok resp => some (mkRecord (basename f) resp)
  | .error _ => none

/-! Helper lemmas shared by the claim theorems. -/

/-- Lookup of the "file" key in a service record. -/
theorem aux_lookup_file {α : Type} (label : String) (resp : α) :
    dict_lookup (mkRecord label resp) "file" = some (PyVal.s label) := rfl

/-- The label a caller reads back from a service record. -/
theorem aux_record_label {α : Type} (label : String) (resp : α) :
    record_label (mkRecord label resp) = label := rfl

/-- The key list of a service record. -/
theorem aux_record_keys {α : Type} (label : String) (resp : α) :
    (mkRecord label resp).map Prod.fst = ["file", "response"] := rfl

/-- An error of _process_url is an error of the client call. -/
theorem aux_process_url_error {α : Type} (client : String → Except PyErr α)
    (url : String) (e : PyErr) (h : OCRService._process_url client url = .error e) :
    client url = .error e := by
  unfold OCRService._process_url at h
  cases hc : client url with
  | ok resp => rw [hc] at h; simp at h
  | error e2 => rw [hc] at h; simp at h; rw [h]

/-- An error of _process_file is an error of the client call. -/
theorem aux_process_file_error {α : Type} (client : String → Except PyErr α)
    (fp : String) (e : PyErr) (h : OCRService._process_file client fp = .error e) :
    client fp = .error e := by
  unfold OCRService._process_file at h
  cases hc : client fp with
  | ok resp => rw [hc] at h; simp at h
  | error e2 => rw [hc] at h; simp at h; rw [h]

/-- An error of the directory loop is an error of some client call in the list. -/
theorem aux_loop_error {α : Type} (client : String → Except PyErr α) :
    ∀ (l : List String) (e : PyErr),
      OCRService._process_directory_loop client l = .error e →
      ∃ f ∈ l, client f = .error e
  | [], e, h => by simp [OCRService._process_directory_loop] at h
  | f :: rest, e, h => by
    rw [OCRService._process_directory_loop] at h
    cases hc : client f with
    | ok resp =>
      rw [hc] at h
      cases ht : OCRService._process_directory_loop client rest with
      | ok tail => rw [ht] at h; simp at h
      | error e2 =>
        rw [ht] at h
        simp at h
        obtain ⟨g, hg, hge⟩ := aux_loop_error client rest e2 ht
        exact ⟨g, List.mem_cons_of_mem f hg, h ▸ hge⟩
    | error e2 =>
      rw [hc] at h
      by_cases htool : e2.isOCRToolError = true
      · simp only [htool, if_true] at h
        obtain ⟨g, hg, hge⟩ := aux_loop_error client rest e h
        exact ⟨g, List.mem_cons_of_mem f hg, hge⟩
      · simp [htool] at h
        exact ⟨f, List.mem_cons_self f rest, h ▸ hc⟩

/-- wrap_unexpected yields ok only when its argument is the same ok. -/
theorem aux_wrap_ok {β : Type} (x : Except PyErr β) (v : β)
    (h : OCRService.wrap_unexpected x = .ok v) : x = .ok v := by
  unfold OCRService.wrap_unexpected at h
  cases x with
  | ok w => simpa using h
  | error e =>
    by_cases htool : e.isOCRToolError = true
    · simp [htool] at h
    · simp [htool] at h

/-- wrap_unexpected maps an error to some error. -/
theorem aux_wrap_error {β : Type} (e : PyErr) :
    ∃ e2, OCRService.wrap_unexpected (Except.error e : Except PyErr β) = .error e2 := by
  by_cases htool : e.isOCRToolError = true
  · exact ⟨e, by simp [OCRService.wrap_unexpected, htool]⟩
  · exact ⟨PyErr.toolError ("Unexpected error processing documents: " ++ e.pymsg),
      by simp [OCRService.wrap_unexpected, htool]⟩

/-! Concrete fixtures used by counterexamples and witnesses. -/

/-- A client that always succeeds. -/
def clientOkNat : String → Except PyErr Nat := fun _ => .ok 7

/-- A filesystem on which nothing exists. -/
def fsEmpty : FS :=
  { isFile := fun _ => false, isDir := fun _ => false, listdir := fun _ => [] }

/-- A filesystem with a regular file named like a URL. -/
def fsC3 : FS :=
  { isFile := fun p => p == "https://example.com/doc.pdf"
    isDir := fun _ => false
    listdir := fun _ => [] }

/-- A filesystem with directory /docs holding a.pdf and b.pdf. -/
def fsC1 : FS :=
  { isFile := fun p => p == "/docs/a.pdf" || p == "/docs/b.pdf"
    isDir := fun p => p == "/docs"
    listdir := fun p => if p == "/docs" then ["a.pdf", "b.pdf"] else [] }

/-- A client raising a non-tool error on /docs/a.pdf and succeeding elsewhere. -/
def clientC1 : String → Except PyErr Nat := fun p =>
  if p == "/docs/a.pdf" then .error (.otherError "boom") else .ok 7

/-- A client raising a tool-level APIError on everything. -/
def clientDown : String → Except PyErr Nat := fun _ => .error (.apiError "down")

/-- A client raising a non-tool error on everything. -/
def clientBoom : String → Except PyErr Nat := fun _ => .error (.otherError "boom")

/-- A filesystem with an existing empty directory /tmp/empty_dir. -/
def fsEmptyDir : FS :=
  { isFile := fun _ => false
    isDir := fun p => p == "/tmp/empty_dir"
    listdir := fun _ => [] }

/-- A dispatcher stand-in that returns an empty sequence without error. -/
def serviceEmpty : String → Except PyErr (List (PyDict Nat)) := fun _ => .ok []

/-- Inversion of wrap_unexpected on errors. -/
theorem aux_wrap_inv {β : Type} (x : Except PyErr β) (d : PyErr)
    (h : OCRService.wrap_unexpected x = .error d) :
    (x = .error d ∧ d.isOCRToolError = true) ∨
    (∃ e, x = .error e ∧ e.isOCRToolError = false ∧
      d = .toolError ("Unexpected error processing documents: " ++ e.pymsg)) := by
  cases x with
  | ok v => simp [OCRService.wrap_unexpected] at h
  | error e =>
    by_cases htool : e.isOCRToolError = true
    · left
      simp [OCRService.wrap_unexpected, htool] at h
      exact ⟨by rw [h], h ▸ htool⟩
    · right
      simp [OCRService.wrap_unexpected, htool] at h
      exact ⟨e, rfl, by simpa using htool, h.symm⟩

/-- Inversion of the classification body on errors: an error comes from the
branch its conditions select, or is the InvalidInputError of the else-branch. -/
theorem aux_body_error_inv {α : Type} (fs : FS) (client : String → Except PyErr α)
    (input : String) (e : PyErr)
    (h : OCRService.process_documents_body fs client input = .error e) :
    (OCRConstants.is_url input = true ∧
      OCRService._process_url client input = .error e) ∨
    (OCRConstants.is_url input = false ∧ fs.isFile input = true ∧
      OCRService._process_file client input = .error e) ∨
    (OCRConstants.is_url input = false ∧ fs.isFile input = false ∧
      fs.isDir input = true ∧
      OCRService._process_directory fs client input = .error e) ∨
    (OCRConstants.is_url input = false ∧ fs.isFile input = false ∧
      fs.isDir input = false ∧
      e = .invalidInput
        ("Invalid input path: " ++ input ++ ". Must be a file, directory, or URL.")) := by
  by_cases hu : OCRConstants.is_url input = true
  · left
    exact ⟨hu, by simpa [OCRService.process_documents_body, hu] using h⟩
  · have hu2 : OCRConstants.is_url input = false := by simpa using hu
    by_cases hf : fs.isFile input = true
    · right; left
      exact ⟨hu2, hf, by simpa [OCRService.process_documents_body, hu2, hf] using h⟩
    · have hf2 : fs.isFile input = false := by simpa using hf
      by_cases hd : fs.isDir input = true
      · right; right; left
        exact ⟨hu2, hf2, hd,
          by simpa [OCRService.process_documents_body, hu2, hf2, hd] using h⟩
      · have hd2 : fs.isDir input = false := by simpa using hd
        right; right; right
        refine ⟨hu2, hf2, hd2, ?_⟩
        have h2 := h
        simp [OCRService.process_documents_body, hu2, hf2, hd2] at h2
        exact h2.symm

/-- Claim C1, counterexample: in directory /docs with supported files a.pdf and
b.pdf, a non-tool (non-OCRToolError) error raised by the external call for
a.pdf propagates out of the loop: the whole directory call fails with the
wrapped generic OCRToolError instead of returning a sequence in which b.pdf
was still processed and a.pdf merely excluded. -/
theorem C1_counterexample :
    OCRService.process_documents fsC1 clientC1 "/docs" =
      Except.error (PyErr.toolError "Unexpected error processing documents: boom") ∧
    ¬ OCRService.process_documents fsC1 clientC1 "/docs" =
      Except.ok [mkRecord "b.pdf" (7 : Nat)] := by
  have heval : OCRService.process_documents fsC1 clientC1 "/docs" =
      Except.error (PyErr.toolError "Unexpected error processing documents: boom") := by
    rfl
  refine ⟨heval, fun h => ?_⟩
  rw [heval] at h
  exact Except.noConfusion h

/-- Claim C1, amended: only OCRToolError-family failures of the external call
are isolated by the directory loop (the remaining files are still processed
and the failed file excluded); a non-tool error instead propagates out of the
loop at once, so the remaining files are not processed. -/
theorem C1_theorem {α : Type} (client : String → Except PyErr α) (f : String)
    (rest : List String) (e : PyErr) (h : client f = .error e) :
    (e.isOCRToolError = true →
      OCRService._process_directory_loop client (f :: rest) =
        OCRService._process_directory_loop client rest) ∧
    (e.isOCRToolError = false →
      OCRService._process_directory_loop client (f :: rest) = .error e) := by
  constructor
  · intro he
    rw [OCRService._process_directory_loop, h]
    simp [he]
  · intro he
    rw [OCRService._process_directory_loop, h]
    simp [he]

/-- Witness for C1_theorem at a concrete client and file list. -/
theorem C1_witness :
    clientDown "/docs/x.pdf" = Except.error (PyErr.apiError "down") ∧
    (((PyErr.apiError "down").isOCRToolError = true →
      OCRService._process_directory_loop clientDown ("/docs/x.pdf" :: ["/docs/y.pdf"]) =
        OCRService._process_directory_loop clientDown ["/docs/y.pdf"]) ∧
    ((PyErr.apiError "down").isOCRToolError = false →
      OCRService._process_directory_loop clientDown ("/docs/x.pdf" :: ["/docs/y.pdf"]) =
        Except.error (PyErr.apiError "down"))) :=
  ⟨rfl, C1_theorem clientDown "/docs/x.pdf" ["/docs/y.pdf"] (PyErr.apiError "down") rfl⟩

/-- Claim C3: an input matching the URL allow-list is handled by the URL
branch regardless of the filesystem (even if a same-named file or directory
exists); moreover the branch order is URL, then file, then directory, then
InvalidInputError. -/
theorem C3_theorem {α : Type} (fs fs2 : FS) (client : String → Except PyErr α)
    (input : String) (h : OCRConstants.is_url input = true) :
    (OCRService.process_documents fs client input =
      OCRService.wrap_unexpected (OCRService._process_url client input)) ∧
    (OCRService.process_documents fs client input =
      OCRService.process_documents fs2 client input) ∧
    (∀ p, OCRConstants.is_url p = false → fs.isFile p = true →
      OCRService.process_documents fs client p =
        OCRService.wrap_unexpected (OCRService._process_file client p)) ∧
    (∀ p, OCRConstants.is_url p = false → fs.isFile p = false →
      fs.isDir p = true →
      OCRService.process_documents fs client p =
        OCRService.wrap_unexpected (OCRService._process_directory fs client p)) ∧
    (∀ p, OCRConstants.is_url p = false → fs.isFile p = false →
      fs.isDir p = false →
      OCRService.process_documents fs client p =
        Except.error (PyErr.invalidInput
          ("Invalid input path: " ++ p ++ ". Must be a file, directory, or URL."))) := by
  refine ⟨?_, ?_, ?_, ?_, ?_⟩
  · simp [OCRService.process_documents, OCRService.process_documents_body, h]
  · simp [OCRService.process_documents, OCRService.process_documents_body, h]
  · intro p hp hf
    simp [OCRService.process_documents, OCRService.process_documents_body, hp, hf]
  · intro p hp hf hd
    simp [OCRService.process_documents, OCRService.process_documents_body, hp, hf, hd]
  · intro p hp hf hd
    simp [OCRService.process_documents, OCRService.process_documents_body, hp, hf, hd,
      OCRService.wrap_unexpected, PyErr.isOCRToolError]

/-- Witness for C3_theorem: the URL branch is taken for a URL string even on a
filesystem where a regular file with exactly that name exists. -/
theorem C3_witness :
    OCRConstants.is_url "https://example.com/doc.pdf" = true ∧
    fsC3.isFile "https://example.com/doc.pdf" = true ∧
    OCRService.process_documents fsC3 clientOkNat "https://example.com/doc.pdf" =
      OCRService.wrap_unexpected
        (OCRService._process_url clientOkNat "https://example.com/doc.pdf") :=
  ⟨by decide, by decide,
   (C3_theorem fsC3 fsC3 clientOkNat "https://example.com/doc.pdf" (by decide)).1⟩

/-- Claim C4: for a client whose failures are never InvalidInputError (true of
the repository client, which raises only UnsupportedFileTypeError, FileError
and APIError), process_documents fails with InvalidInputError exactly when
the input is neither an allow-listed URL, nor an existing file, nor an
existing directory. -/
theorem C4_theorem {α : Type} (fs : FS) (client : String → Except PyErr α)
    (input : String)
    (hclient : ∀ p e, client p = .error e → e.isInvalidInput = false) :
    (∃ m, OCRService.process_documents fs client input =
      .error (PyErr.invalidInput m)) ↔
    (OCRConstants.is_url input = false ∧ fs.isFile input = false ∧
      fs.isDir input = false) := by
  constructor
  · rintro ⟨m, hm⟩
    rw [OCRService.process_documents] at hm
    have hbody : OCRService.process_documents_body fs client input =
        .error (PyErr.invalidInput m) := by
      rcases aux_wrap_inv _ _ hm with ⟨h1, _⟩ | ⟨e, _, _, habs⟩
      · exact h1
      · simp at habs
    rcases aux_body_error_inv fs client input _ hbody with
      ⟨hu, hurl⟩ | ⟨hu, hf, hfile⟩ | ⟨hu, hf, hd, hdir⟩ | ⟨hu, hf, hd, _⟩
    · have hc := aux_process_url_error client input _ hurl
      have h2 := hclient input _ hc
      simp [PyErr.isInvalidInput] at h2
    · have hc := aux_process_file_error client input _ hfile
      have h2 := hclient input _ hc
      simp [PyErr.isInvalidInput] at h2
    · rw [OCRService._process_directory] at hdir
      obtain ⟨g, hg, hgc⟩ := aux_loop_error client _ _ hdir
      have h2 := hclient g _ hgc
      simp [PyErr.isInvalidInput] at h2
    · exact ⟨hu, hf, hd⟩
  · rintro ⟨hu, hf, hd⟩
    refine ⟨"Invalid input path: " ++ input ++ ". Must be a file, directory, or URL.", ?_⟩
    simp [OCRService.process_documents, OCRService.process_documents_body, hu, hf, hd,
      OCRService.wrap_unexpected, PyErr.isOCRToolError]

/-- Witness for C4_theorem: the scenario input "/does/not/exist" raises
InvalidInputError on a filesystem where it does not exist. -/
theorem C4_witness :
    (∀ p e, clientOkNat p = Except.error e → e.isInvalidInput = false) ∧
    ((∃ m, OCRService.process_documents fsEmpty clientOkNat "/does/not/exist" =
        .error (PyErr.invalidInput m)) ↔
      (OCRConstants.is_url "/does/not/exist" = false ∧
        fsEmpty.isFile "/does/not/exist" = false ∧
        fsEmpty.isDir "/does/not/exist" = false)) :=
  ⟨fun p e h => by simp [clientOkNat] at h,
   C4_theorem fsEmpty clientOkNat "/does/not/exist"
     (fun p e h => by simp [clientOkNat] at h)⟩

/-- Claim C6: a directory input whose filtered supported-file list is empty
yields the empty sequence without any error. -/
theorem C6_theorem {α : Type} (fs : FS) (client : String → Except PyErr α)
    (dp : String) (hu : OCRConstants.is_url dp = false) (hf : fs.isFile dp = false)
    (hd : fs.isDir dp = true)
    (hempty : OCRService._filter_supported_files
      (OCRService._get_files_in_directory fs dp) = []) :
    OCRService.process_documents fs client dp = .ok [] := by
  simp [OCRService.process_documents, OCRService.process_documents_body, hu, hf, hd,
    OCRService._process_directory, hempty, OCRService._process_directory_loop,
    OCRService.wrap_unexpected]

/-- Witness for C6_theorem: the scenario input "/tmp/empty_dir". -/
theorem C6_witness :
    OCRConstants.is_url "/tmp/empty_dir" = false ∧
    fsEmptyDir.isFile "/tmp/empty_dir" = false ∧
    fsEmptyDir.isDir "/tmp/empty_dir" = true ∧
    OCRService._filter_supported_files
      (OCRService._get_files_in_directory fsEmptyDir "/tmp/empty_dir") = [] ∧
    OCRService.process_documents fsEmptyDir clientOkNat "/tmp/empty_dir" = .ok [] :=
  ⟨by decide, rfl, by decide, rfl,
   C6_theorem fsEmptyDir clientOkNat "/tmp/empty_dir" (by decide) rfl (by decide) rfl⟩

/-- Claim C7: process_documents presents one exception family: a tool-level
error of the dispatch body propagates unchanged, any other error is re-raised
wrapped as a generic OCRToolError, and consequently every error the caller
sees is in the OCRToolError family. -/
theorem C7_theorem {α : Type} (fs : FS) (client : String → Except PyErr α)
    (input : String) :
    (∀ e, OCRService.process_documents_body fs client input = .error e →
      e.isOCRToolError = true →
      OCRService.process_documents fs client input = .error e) ∧
    (∀ e, OCRService.process_documents_body fs client input = .error e →
      e.isOCRToolError = false →
      OCRService.process_documents fs client input =
        .error (.toolError ("Unexpected error processing documents: " ++ e.pymsg))) ∧
    (∀ e, OCRService.process_documents fs client input = .error e →
      e.isOCRToolError = true) := by
  refine ⟨?_, ?_, ?_⟩
  · intro e hb ht
    simp [OCRService.process_documents, OCRService.wrap_unexpected, hb, ht]
  · intro e hb ht
    simp [OCRService.process_documents, OCRService.wrap_unexpected, hb, ht]
  · intro e h
    rw [OCRService.process_documents] at h
    rcases aux_wrap_inv _ _ h with ⟨_, ht⟩ | ⟨e2, _, _, hd⟩
    · exact ht
    · rw [hd]
      rfl

/-- Witness for C7_theorem: a non-tool error on the URL branch is wrapped
into a generic OCRToolError. -/
theorem C7_witness :
    OCRService.process_documents_body fsEmpty clientBoom "https://example.com/doc.pdf" =
      Except.error (PyErr.otherError "boom") ∧
    (PyErr.otherError "boom").isOCRToolError = false ∧
    OCRService.process_documents fsEmpty clientBoom "https://example.com/doc.pdf" =
      Except.error (PyErr.toolError ("Unexpected error processing documents: " ++
        (PyErr.otherError "boom").pymsg)) :=
  ⟨rfl, rfl,
   (C7_theorem fsEmpty clientBoom "https://example.com/doc.pdf").2.1
     (PyErr.otherError "boom") rfl rfl⟩

/-- Claim C10: when the dispatcher returns an empty sequence for a URL without
raising, the batch endpoint appends that URL to failed_urls and leaves the
results untouched, preserving the success/failure partition. -/
theorem C10_theorem {α : Type} (service : String → Except PyErr (List (PyDict α)))
    (u : String) (rest : List String) (h : service u = .ok []) :
    process_batch service (u :: rest) =
      { results := (process_batch service rest).results
        failed_urls := u :: (process_batch service rest).failed_urls } := by
  rw [process_batch, h]

/-- Witness for C10_theorem at a dispatcher stand-in returning an empty list. -/
theorem C10_witness :
    serviceEmpty "https://example.com/doc.pdf" = Except.ok [] ∧
    process_batch serviceEmpty ("https://example.com/doc.pdf" :: []) =
      { results := (process_batch serviceEmpty []).results
        failed_urls :=
          "https://example.com/doc.pdf" :: (process_batch serviceEmpty []).failed_urls } :=
  ⟨rfl, C10_theorem serviceEmpty "https://example.com/doc.pdf" [] rfl⟩

/-! Machinery for the directory-count claim C2 and the shape claim C9. -/

/-- When every call in the list succeeds or fails tool-level, the directory
loop returns exactly the records of the succeeding files, in order. -/
theorem aux_loop_ok {α : Type} (client : String → Except PyErr α) :
    ∀ l : List String, (∀ f ∈ l, okOrToolError (client f) = true) →
      OCRService._process_directory_loop client l =
        .ok (l.filterMap (succRecord client))
  | [], _ => rfl
  | f :: rest, h => by
    have hf := h f (List.mem_cons_self f rest)
    have ih := aux_loop_ok client rest (fun g hg => h g (List.mem_cons_of_mem f hg))
    rw [OCRService._process_directory_loop]
    cases hc : client f with
    | ok resp => simp [ih, succRecord, hc, List.filterMap_cons]
    | error e =>
      have htool : e.isOCRToolError = true := by
        simpa [okOrToolError, hc] using hf
      simp [ih, succRecord, hc, htool, List.filterMap_cons]

/-- Successes and failures of the client calls partition the file list. -/
theorem aux_succ_length {α : Type} (client : String → Except PyErr α) :
    ∀ l : List String,
      (l.filterMap (succRecord client)).length +
        (l.filter (fun f => clientFails client f)).length = l.length
  | [] => rfl
  | f :: rest => by
    have ih := aux_succ_length client rest
    cases hc : client f with
    | ok resp =>
      have h1 : succRecord client f = some (mkRecord (basename f) resp) := by
        simp [succRecord, hc]
      have h2 : clientFails client f = false := by
        simp [clientFails, hc]
      simp only [List.filterMap_cons, List.filter_cons, h1, h2, Bool.false_eq_true,
        if_false, List.length_cons]
      omega
    | error e =>
      have h1 : succRecord client f = none := by simp [succRecord, hc]
      have h2 : clientFails client f = true := by simp [clientFails, hc]
      simp only [List.filterMap_cons, List.filter_cons, h1, h2, if_true,
        List.length_cons]
      omega

/-- Every record an ok run of the directory loop returns comes from a
succeeding file of the list and is labelled with its basename. -/
theorem aux_loop_mem {α : Type} (client : String → Except PyErr α) :
    ∀ (l : List String) (rs : List (PyDict α)),
      OCRService._process_directory_loop client l = .ok rs →
      ∀ rcd ∈ rs, ∃ f ∈ l, ∃ resp, client f = .ok resp ∧
        rcd = mkRecord (basename f) resp
  | [], rs, h => by
    simp [OCRService._process_directory_loop] at h
    subst h
    intro rcd hrcd
    simp at hrcd
  | f :: rest, rs, h => by
    rw [OCRService._process_directory_loop] at h
    cases hc : client f with
    | ok resp =>
      rw [hc] at h
      cases ht : OCRService._process_directory_loop client rest with
      | ok tail =>
        rw [ht] at h
        simp at h
        subst h
        intro rcd hrcd
        rcases List.mem_cons.mp hrcd with hrcdeq | hmem
        · exact ⟨f, List.mem_cons_self f rest, resp, hc, hrcdeq⟩
        · obtain ⟨g, hg, r2, hr2, hrcd2⟩ := aux_loop_mem client rest tail ht rcd hmem
          exact ⟨g, List.mem_cons_of_mem f hg, r2, hr2, hrcd2⟩
      | error e =>
        rw [ht] at h
        simp at h
    | error e =>
      rw [hc] at h
      by_cases htool : e.isOCRToolError = true
      · simp only [htool, if_true] at h
        intro rcd hrcd
        obtain ⟨g, hg, r2, hr2, hrcd2⟩ := aux_loop_mem client rest rs h rcd hrcd
        exact ⟨g, List.mem_cons_of_mem f hg, r2, hr2, hrcd2⟩
      · simp [htool] at h

/-- A filesystem with directory /mixed holding a.pdf, b.txt and c.png. -/
def fsC2 : FS :=
  { isFile := fun p => p == "/mixed/a.pdf" || p == "/mixed/b.txt" || p == "/mixed/c.png"
    isDir := fun p => p == "/mixed"
    listdir := fun p => if p == "/mixed" then ["a.pdf", "b.txt", "c.png"] else [] }

/-- A client failing tool-level on /mixed/c.png and succeeding elsewhere. -/
def clientC2 : String → Except PyErr Nat := fun p =>
  if p == "/mixed/c.png" then .error (.apiError "api down") else .ok 3

/-- Claim C2: when the external call only fails tool-level (the failure kinds
its interface declares) and distinct supported files have distinct basenames
(as os.listdir guarantees), a directory run returns a success sequence whose
length is the number of supported direct child files minus the number whose
call failed, and no failed file is ever labelled in the success sequence. -/
theorem C2_theorem {α : Type} (fs : FS) (client : String → Except PyErr α)
    (dp : String) (hu : OCRConstants.is_url dp = false) (hf : fs.isFile dp = false)
    (hd : fs.isDir dp = true)
    (hok : ∀ f ∈ OCRService._filter_supported_files
      (OCRService._get_files_in_directory fs dp), okOrToolError (client f) = true)
    (hinj : ∀ g1 ∈ OCRService._filter_supported_files
      (OCRService._get_files_in_directory fs dp),
      ∀ g2 ∈ OCRService._filter_supported_files
        (OCRService._get_files_in_directory fs dp),
      basename g1 = basename g2 → g1 = g2) :
    ∃ rs, OCRService.process_documents fs client dp = .ok rs ∧
      rs.length = (OCRService._filter_supported_files
          (OCRService._get_files_in_directory fs dp)).length -
        ((OCRService._filter_supported_files
          (OCRService._get_files_in_directory fs dp)).filter
            (fun f => clientFails client f)).length ∧
      ∀ f ∈ OCRService._filter_supported_files
          (OCRService._get_files_in_directory fs dp),
        clientFails client f = true →
        ∀ rcd ∈ rs, dict_lookup rcd "file" ≠ some (PyVal.s (basename f)) := by
  refine ⟨(OCRService._filter_supported_files
    (OCRService._get_files_in_directory fs dp)).filterMap (succRecord client),
    ?_, ?_, ?_⟩
  · have hloop := aux_loop_ok client _ hok
    simp [OCRService.process_documents, OCRService.process_documents_body, hu, hf, hd,
      OCRService._process_directory, hloop, OCRService.wrap_unexpected]
  · have h2 := aux_succ_length client (OCRService._filter_supported_files
      (OCRService._get_files_in_directory fs dp))
    omega
  · intro f hfmem hfail rcd hrcd heq
    rcases List.mem_filterMap.mp hrcd with ⟨g, hg, hgs⟩
    cases hcg : client g with
    | error e => simp [succRecord, hcg] at hgs
    | ok resp =>
      have hrcdeq : rcd = mkRecord (basename g) resp := by
        rw [succRecord, hcg] at hgs
        exact (Option.some.inj hgs).symm
      rw [hrcdeq, aux_lookup_file] at heq
      have hbase : basename g = basename f := by
        simpa using heq
      have hgf : g = f := hinj g hg f hfmem hbase
      subst hgf
      simp [clientFails, hcg] at hfail

/-- Witness for C2_theorem on the mixed-directory scenario: a.pdf succeeds,
b.txt is filtered out as unsupported, c.png fails tool-level. -/
theorem C2_witness :
    (∀ f ∈ OCRService._filter_supported_files
        (OCRService._get_files_in_directory fsC2 "/mixed"),
      okOrToolError (clientC2 f) = true) ∧
    (∃ rs, OCRService.process_documents fsC2 clientC2 "/mixed" = .ok rs ∧
      rs.length = (OCRService._filter_supported_files
          (OCRService._get_files_in_directory fsC2 "/mixed")).length -
        ((OCRService._filter_supported_files
          (OCRService._get_files_in_directory fsC2 "/mixed")).filter
            (fun f => clientFails clientC2 f)).length ∧
      ∀ f ∈ OCRService._filter_supported_files
          (OCRService._get_files_in_directory fsC2 "/mixed"),
        clientFails clientC2 f = true →
        ∀ rcd ∈ rs, dict_lookup rcd "file" ≠ some (PyVal.s (basename f))) :=
  ⟨by decide,
   C2_theorem fsC2 clientC2 "/mixed" (by decide) (by decide) (by decide)
     (by decide) (by decide)⟩

/-! Machinery for the batch claim C5. -/

/-- Batch step when the dispatcher returns a nonempty sequence. -/
theorem aux_batch_cons_ok {α : Type}
    (service : String → Except PyErr (List (PyDict α))) (u : String)
    (rest : List String) (r : PyDict α) (rs0 : List (PyDict α))
    (h : service u = .ok (r :: rs0)) :
    process_batch service (u :: rest) =
      { results := r :: (process_batch service rest).results
        failed_urls := (process_batch service rest).failed_urls } := by
  rw [process_batch, h]

/-- Batch step when the dispatcher raises. -/
theorem aux_batch_cons_err {α : Type}
    (service : String → Except PyErr (List (PyDict α))) (u : String)
    (rest : List String) (e : PyErr) (h : service u = .error e) :
    process_batch service (u :: rest) =
      { results := (process_batch service rest).results
        failed_urls := u :: (process_batch service rest).failed_urls } := by
  rw [process_batch, h]

/-- The batch loop over URL inputs partitions the input URLs between the
labels of the success records and failed_urls. -/
theorem aux_batch_partition {α : Type} (fs : FS) (client : String → Except PyErr α) :
    ∀ urls : List String, (∀ u ∈ urls, OCRConstants.is_url u = true) →
      ((process_batch (OCRService.process_documents fs client) urls).results.length +
        (process_batch (OCRService.process_documents fs client) urls).failed_urls.length
          = urls.length) ∧
      ((process_batch (OCRService.process_documents fs client) urls).results.map
          record_label ++
        (process_batch (OCRService.process_documents fs client) urls).failed_urls).Perm
        urls
  | [], _ => ⟨rfl, List.Perm.refl []⟩
  | u :: rest, h => by
    have hu := h u (List.mem_cons_self u rest)
    have ih := aux_batch_partition fs client rest
      (fun v hv => h v (List.mem_cons_of_mem u hv))
    cases hc : client u with
    | ok resp =>
      have hok : OCRService.process_documents fs client u = .ok [mkRecord u resp] := by
        simp [OCRService.process_documents, OCRService.process_documents_body, hu,
          OCRService._process_url, hc, OCRService.wrap_unexpected]
      rw [aux_batch_cons_ok _ _ _ _ _ hok]
      constructor
      · have h1 := ih.1
        simp only [List.length_cons]
        omega
      · simpa [aux_record_label] using (ih.2).cons u
    | error e =>
      have herr : ∃ e2, OCRService.process_documents fs client u = .error e2 := by
        have hb : OCRService.process_documents_body fs client u = .error e := by
          simp [OCRService.process_documents_body, hu, OCRService._process_url, hc]
        rw [OCRService.process_documents, hb]
        exact aux_wrap_error e
      obtain ⟨e2, he2⟩ := herr
      rw [aux_batch_cons_err _ _ _ _ he2]
      constructor
      · have h1 := ih.1
        simp only [List.length_cons]
        omega
      · exact List.perm_middle.trans ((ih.2).cons u)

/-- Claim C5: for every batch of 1 to 10 URL strings, the number of success
records plus the number of failed_urls entries equals the number of input
URLs, and the multiset of success labels together with failed_urls is exactly
the multiset of input URLs — each URL occurrence lands in exactly one of the
two lists and no per-URL failure aborts the rest. -/
theorem C5_theorem {α : Type} (fs : FS) (client : String → Except PyErr α)
    (urls : List String) (_hlen1 : 1 ≤ urls.length) (_hlen10 : urls.length ≤ 10)
    (hall : ∀ u ∈ urls, OCRConstants.is_url u = true) :
    ((process_batch (OCRService.process_documents fs client) urls).results.length +
      (process_batch (OCRService.process_documents fs client) urls).failed_urls.length
        = urls.length) ∧
    ((process_batch (OCRService.process_documents fs client) urls).results.map
        record_label ++
      (process_batch (OCRService.process_documents fs client) urls).failed_urls).Perm
      urls :=
  aux_batch_partition fs client urls hall

/-- A client failing on the second witness URL and succeeding on the first. -/
def clientC5 : String → Except PyErr Nat := fun p =>
  if p == "https://b.example/y.pdf" then .error (.apiError "down") else .ok 9

/-- Witness for C5_theorem on a two-URL batch with one failure. -/
theorem C5_witness :
    1 ≤ (["https://a.example/x.pdf", "https://b.example/y.pdf"] : List String).length ∧
    (["https://a.example/x.pdf", "https://b.example/y.pdf"] : List String).length ≤ 10 ∧
    (∀ u ∈ (["https://a.example/x.pdf", "https://b.example/y.pdf"] : List String),
      OCRConstants.is_url u = true) ∧
    (((process_batch (OCRService.process_documents fsEmpty clientC5)
        ["https://a.example/x.pdf", "https://b.example/y.pdf"]).results.length +
      (process_batch (OCRService.process_documents fsEmpty clientC5)
        ["https://a.example/x.pdf", "https://b.example/y.pdf"]).failed_urls.length
        = (["https://a.example/x.pdf", "https://b.example/y.pdf"] : List String).length) ∧
    ((process_batch (OCRService.process_documents fsEmpty clientC5)
        ["https://a.example/x.pdf", "https://b.example/y.pdf"]).results.map
        record_label ++
      (process_batch (OCRService.process_documents fsEmpty clientC5)
        ["https://a.example/x.pdf", "https://b.example/y.pdf"]).failed_urls).Perm
      ["https://a.example/x.pdf", "https://b.example/y.pdf"]) :=
  ⟨by decide, by decide, by decide,
   C5_theorem fsEmpty clientC5 ["https://a.example/x.pdf", "https://b.example/y.pdf"]
     (by decide) (by decide) (by decide)⟩

/-! Machinery for the persistence round-trip claim C8. -/

/-- Persisting one well-formed record yields the two-key object. -/
theorem aux_save_item {α : Type} (model_dump : α → Json) (label : String) (resp : α) :
    save_output_item model_dump (mkRecord label resp) =
      .ok (Json.obj [("file", Json.s label), ("response", model_dump resp)]) := rfl

/-- Reading back one persisted record. -/
theorem aux_read_record (label : String) (payload : Json) :
    read_record (Json.obj [("file", Json.s label), ("response", payload)]) =
      some (label, payload) := rfl

/-- Persisting a list of well-formed records yields the list of two-key
objects, in order. -/
theorem aux_save_list {α : Type} (model_dump : α → Json) :
    ∀ ps : List (String × α),
      save_output_list model_dump (ps.map (fun p => mkRecord p.1 p.2)) =
        .ok (ps.map (fun p =>
          Json.obj [("file", Json.s p.1), ("response", model_dump p.2)]))
  | [] => rfl
  | p :: ps => by
    have ih := aux_save_list model_dump ps
    simp [save_output_list, aux_save_item, ih]

/-- Reading back a list of persisted records recovers labels and payloads. -/
theorem aux_read_list {α : Type} (model_dump : α → Json) :
    ∀ ps : List (String × α),
      read_record_list (ps.map (fun p =>
        Json.obj [("file", Json.s p.1), ("response", model_dump p.2)])) =
      some (ps.map (fun p => (p.1, model_dump p.2)))
  | [] => rfl
  | p :: ps => by
    have ih := aux_read_list model_dump ps
    simp [read_record_list, aux_read_record, ih]

/-- Claim C8: persisting an outcome sequence writes an indented JSON array of
objects with exactly the keys "file" and "response", and reading that JSON
back as structured data yields the same file labels in the same positions
with structurally equivalent (model_dump) response payloads. -/
theorem C8_theorem {α : Type} (model_dump : α → Json) (ps : List (String × α)) :
    save_output model_dump (ps.map (fun p => mkRecord p.1 p.2)) =
      .ok (Json.arr (ps.map (fun p =>
        Json.obj [("file", Json.s p.1), ("response", model_dump p.2)]))) ∧
    read_output (Json.arr (ps.map (fun p =>
        Json.obj [("file", Json.s p.1), ("response", model_dump p.2)]))) =
      some (ps.map (fun p => (p.1, model_dump p.2))) := by
  constructor
  · simp [save_output, aux_save_list, Except.map]
  · simp [read_output, aux_read_list]

/-- Claim C9: every ok run of process_documents returns only records that are
dicts with exactly the keys "file" and "response"; the URL branch yields one
record labelled with the URL, the single-file branch one record labelled with
the path as given, and the directory branch records labelled with basenames
of supported files whose call succeeded. -/
theorem C9_theorem {α : Type} (fs : FS) (client : String → Except PyErr α)
    (input : String) (rs : List (PyDict α))
    (h : OCRService.process_documents fs client input = .ok rs) :
    (∀ rcd ∈ rs, rcd.map Prod.fst = ["file", "response"]) ∧
    (OCRConstants.is_url input = true → ∃ resp, rs = [mkRecord input resp]) ∧
    (OCRConstants.is_url input = false → fs.isFile input = true →
      ∃ resp, rs = [mkRecord input resp]) ∧
    (OCRConstants.is_url input = false → fs.isFile input = false →
      fs.isDir input = true →
      ∀ rcd ∈ rs, ∃ f ∈ OCRService._filter_supported_files
          (OCRService._get_files_in_directory fs input),
        ∃ resp, client f = .ok resp ∧ rcd = mkRecord (basename f) resp) := by
  rw [OCRService.process_documents] at h
  have hbody := aux_wrap_ok _ _ h
  have hshape : ∀ rcd ∈ rs, ∃ l, ∃ resp, rcd = mkRecord l resp := by
    by_cases hu : OCRConstants.is_url input = true
    · have hurl : OCRService._process_url client input = .ok rs := by
        simpa [OCRService.process_documents_body, hu] using hbody
      cases hc : client input with
      | ok resp =>
        rw [OCRService._process_url, hc] at hurl
        have hrs : rs = [mkRecord input resp] := by simpa using hurl.symm
        intro rcd hrcd
        rw [hrs] at hrcd
        simp at hrcd
        exact ⟨input, resp, hrcd⟩
      | error e => rw [OCRService._process_url, hc] at hurl; simp at hurl
    · have hu2 : OCRConstants.is_url input = false := by simpa using hu
      by_cases hf : fs.isFile input = true
      · have hfile : OCRService._process_file client input = .ok rs := by
          simpa [OCRService.process_documents_body, hu2, hf] using hbody
        cases hc : client input with
        | ok resp =>
          rw [OCRService._process_file, hc] at hfile
          have hrs : rs = [mkRecord input resp] := by simpa using hfile.symm
          intro rcd hrcd
          rw [hrs] at hrcd
          simp at hrcd
          exact ⟨input, resp, hrcd⟩
        | error e => rw [OCRService._process_file, hc] at hfile; simp at hfile
      · have hf2 : fs.isFile input = false := by simpa using hf
        by_cases hd : fs.isDir input = true
        · have hdir : OCRService._process_directory fs client input = .ok rs := by
            simpa [OCRService.process_documents_body, hu2, hf2, hd] using hbody
          rw [OCRService._process_directory] at hdir
          intro rcd hrcd
          obtain ⟨g, hg, resp, hresp, hrcd2⟩ :=
            aux_loop_mem client _ rs hdir rcd hrcd
          exact ⟨basename g, resp, hrcd2⟩
        · have hd2 : fs.isDir input = false := by simpa using hd
          simp [OCRService.process_documents_body, hu2, hf2, hd2] at hbody
  refine ⟨?_, ?_, ?_, ?_⟩
  · intro rcd hrcd
    obtain ⟨l, resp, hrcd2⟩ := hshape rcd hrcd
    rw [hrcd2]
    exact aux_record_keys l resp
  · intro hu
    have hurl : OCRService._process_url client input = .ok rs := by
      simpa [OCRService.process_documents_body, hu] using hbody
    cases hc : client input with
    | ok resp =>
      rw [OCRService._process_url, hc] at hurl
      exact ⟨resp, by simpa using hurl.symm⟩
    | error e => rw [OCRService._process_url, hc] at hurl; simp at hurl
  · intro hu hf
    have hfile : OCRService._process_file client input = .ok rs := by
      simpa [OCRService.process_documents_body, hu, hf] using hbody
    cases hc : client input with
    | ok resp =>
      rw [OCRService._process_file, hc] at hfile
      exact ⟨resp, by simpa using hfile.symm⟩
    | error e => rw [OCRService._process_file, hc] at hfile; simp at hfile
  · intro hu hf hd
    have hdir : OCRService._process_directory fs client input = .ok rs := by
      simpa [OCRService.process_documents_body, hu, hf, hd] using hbody
    rw [OCRService._process_directory] at hdir
    intro rcd hrcd
    exact aux_loop_mem client _ rs hdir rcd hrcd

/-- Witness for C9_theorem on the mixed-directory run: the only record has
exactly the keys "file" and "response". -/
theorem C9_witness :
    OCRService.process_documents fsC2 clientC2 "/mixed" =
      .ok [mkRecord "a.pdf" (3 : Nat)] ∧
    ∀ rcd ∈ [mkRecord "a.pdf" (3 : Nat)], rcd.map Prod.fst = ["file", "response"] :=
  ⟨rfl, (C9_theorem fsC2 clientC2 "/mixed" [mkRecord "a.pdf" (3 : Nat)] rfl).1⟩

end MistralOCR
